import Mathlib

/-!
Shallow embedding of the collection-view controller in `src/app.v2.js`
(zoological-society). The module-level mutable state of the script is
modelled as an explicit `AppState` record; the DOM-rendering side effects
are dropped and each rendering entry point is modelled by the pure
derivation it performs on that state (plus the one piece of state it
writes back, the clamped `currentPage`). Remote responses are passed in
as explicit `Except String _` arguments: `.ok v` stands for a 2xx
response with parsed JSON `v`, `.error msg` for a network failure or a
non-2xx response whose parsed detail is `msg` (both are collapsed by the
`apiCall` wrapper in the source, lines 986-1009).
-/

/-- A game record as used by the derivation logic: `id`, `title`, `genre`
(comma-separated tag string). JS `g.genre` being `null`/`undefined`/`""`
is uniformly modelled as `""` — all are falsy in the guards of the
source, which is the only way the code inspects absence. Display-only
fields (`cover_url`, `description`, `screenshots`) are omitted. -/
structure Game where
  id : Nat
  title : String
  genre : String
deriving Repr, DecidableEq

/-- Per-console stats payload (`GET /consoles/{id}/stats`), stored in
`consoleStats` and only ever displayed (renderStatusFilters). -/
structure ConsoleStats where
  favorites_count : Nat
  playing_count : Nat
  plan_to_play_count : Nat
  completed_count : Nat
  dropped_count : Nat
  on_hold_count : Nat
deriving Repr, DecidableEq

/-- Game-status payload (`GET /games/{id}/status`), stored in
`currentGameStatus` and only ever displayed (renderGameDetail). -/
structure GameStatus where
  favorite : Bool
  playing : Bool
  plan_to_play : Bool
  completed : Bool
  dropped : Bool
  on_hold : Bool
  completed_date_note : String
deriving Repr, DecidableEq

/-- A `showToast(message, type)` call (source lines 969-983): the
user-visible transient notices. -/
structure Toast where
  message : String
  kind : String
deriving Repr, DecidableEq

/-- The module-level mutable state of `app.v2.js` that the claims are
about (source lines 20-66 and 485). Display-only globals (`genres`,
`archiveStats`, lightbox state, `isLoading`, view/search state) are
omitted: none of the modelled code paths read them. The games cache
`gamesByConsole` (a JS object keyed by console id) is an association
list. -/
structure AppState where
  gamesByConsole : List (Nat × List Game)
  currentConsoleId : Option Nat
  activeFilter : Option String
  activeGenreFilter : Option String
  activeStatusFilter : Option String
  statusFilteredGames : List Game
  currentPage : Nat
  consoleStats : Option ConsoleStats
  currentGameDetail : Option Game
  currentGameStatus : Option GameStatus
  currentGameIndex : Int
  currentGamesList : List Game
  currentDescriptionPage : Nat
deriving Repr, DecidableEq

/-- `gamesByConsole[cid] || []` — lookup in the cache, empty when absent. -/
def lookupGames : List (Nat × List Game) → Nat → List Game
  | [], _ => []
  | (k, v) :: rest, cid => if k = cid then v else lookupGames rest cid

/-- `gamesByConsole[cid] = gs` — JS object assignment on the cache. -/
def updateCache : List (Nat × List Game) → Nat → List Game → List (Nat × List Game)
  | [], cid, gs => [(cid, gs)]
  | (k, v) :: rest, cid, gs =>
      if k = cid then (cid, gs) :: rest else (k, v) :: updateCache rest cid gs

/-- `PAGE_SIZE` (source line 29). -/
def PAGE_SIZE : Nat := 20

/-- JS `s.split(sep)` for a one-character separator, on the character
list of the string: `"" → [""]`, separators at the ends produce empty
pieces, exactly as in JS. -/
def splitOnChar (sep : Char) : List Char → List (List Char)
  | [] => [[]]
  | c :: cs =>
      let r := splitOnChar sep cs
      if c = sep then [] :: r
      else
        match r with
        | [] => [[c]]
        | h :: t => (c :: h) :: t

/-- JS `s.trim()`: drop leading and trailing whitespace. -/
def trimChars (l : List Char) : List Char :=
  ((l.dropWhile Char.isWhitespace).reverse.dropWhile Char.isWhitespace).reverse

/-- JS `s.trim()` on a `String`. -/
def trimStr (s : String) : String := String.mk (trimChars s.data)

/-- JS `s.startsWith(p)`: `startsWithL s p` is true iff `p` is an
initial segment of `s`. -/
def startsWithL : List Char → List Char → Bool
  | _, [] => true
  | [], _ :: _ => false
  | c :: cs, d :: ds => c = d && startsWithL cs ds

/-- Three-way code-point comparison of two lists of character codes:
the usual lexicographic order underlying JS string comparison. -/
def strCmp : List Nat → List Nat → Ordering
  | [], [] => .eq
  | [], _ :: _ => .lt
  | _ :: _, [] => .gt
  | a :: as, b :: bs =>
      if a < b then .lt else if b < a then .gt else strCmp as bs

/-- The code points of the lowercased string (JS `toLowerCase`; ASCII,
which is all the collation model needs). -/
def lowerKey (s : String) : List Nat := s.data.map fun c => c.toLower.toNat

/-- The raw code points of a string. -/
def rawKey (s : String) : List Nat := s.data.map Char.toNat

/-- Model of `a.localeCompare(b)` (source line 2081) under the default
locale: primary comparison is case-insensitive (code-point order of the
lowercased strings), with the raw code-point order as tie-break. The
exact ICU collation is locale-dependent; this model keeps the two
properties the program relies on — case-insensitivity of the primary
key and `compare x x = eq` — and is what every claim here exercises. -/
def localeCompare (a b : String) : Ordering :=
  match strCmp (lowerKey a) (lowerKey b) with
  | .eq => strCmp (rawKey a) (rawKey b)
  | o => o

/-- The non-strict order `a.localeCompare(b) <= 0` used as the sort
comparator. -/
def localeLe (a b : String) : Prop := localeCompare a b ≠ .gt

instance : DecidableRel localeLe := fun a b => by
  unfold localeLe; infer_instance

/-- The comparator closure `(a, b) => a.title.localeCompare(b.title)`
(source line 2081), as a non-strict relation on games. -/
def titleLe (a b : Game) : Prop := localeLe a.title b.title

instance : DecidableRel titleLe := fun a b => by
  unfold titleLe; infer_instance

/-- `.slice().sort((a, b) => a.title.localeCompare(b.title))` (source
lines 2079-2081): JS `Array.prototype.sort` is stable (ES2019), and a
stable sort by a fixed comparator is extensionally unique, so it is
modelled by stable insertion sort with the same comparator. -/
def sortByTitle (gs : List Game) : List Game := List.insertionSort titleLe gs

/-- The alphabetical-index predicate (source lines 2086-2092 and
2211-2216): filter `"0-9"` matches titles starting with a digit
(`/^[0-9]/`), a letter filter matches `title.toUpperCase().startsWith(f)`. -/
def alphaMatches (f : String) (title : String) : Bool :=
  if f = "0-9" then
    match title.data with
    | [] => false
    | c :: _ => c.isDigit
  else
    startsWithL (title.data.map Char.toUpper) f.data

/-- The genre-filter predicate (source lines 2097-2102 and 2220-2225):
a falsy genre matches nothing; otherwise the game matches iff some
comma-separated piece of its genre string, trimmed, equals the active
genre exactly. -/
def genreMatches (f : String) (g : Game) : Bool :=
  if g.genre = "" then false
  else (splitOnChar ',' g.genre.data).any fun t => trimChars t = f.data

/-- Lines 2070-2082 of `renderGamesForCurrentConsole`: the base list.
`none` models the early return ("Select a console to see its games."):
no status-filtered games to show and no console selected. Note the
guard `activeStatusFilter && statusFilteredGames.length > 0`: an active
status filter whose fetched subset is empty falls through to the cached
branch. The status branch is `statusFilteredGames.slice()` — unsorted. -/
def baseList (s : AppState) : Option (List Game) :=
  if s.activeStatusFilter.isSome ∧ 0 < s.statusFilteredGames.length then
    some s.statusFilteredGames
  else
    match s.currentConsoleId with
    | none => none
    | some cid => some (sortByTitle (lookupGames s.gamesByConsole cid))

/-- Lines 2070-2103: base list plus the alphabetical and genre filters,
each applied only when no status filter is active
(`!activeStatusFilter && activeFilter`, `!activeStatusFilter &&
activeGenreFilter`). This is the list handed to pagination. -/
def workingList (s : AppState) : Option (List Game) :=
  (baseList s).map fun gs =>
    let gs1 :=
      if s.activeStatusFilter.isNone then
        match s.activeFilter with
        | some f => gs.filter fun g => alphaMatches f g.title
        | none => gs
      else gs
    if s.activeStatusFilter.isNone then
      match s.activeGenreFilter with
      | some gf => gs1.filter fun g => genreMatches gf g
      | none => gs1
    else gs1

/-- Lines 2105-2110: `totalPages = Math.ceil(games.length / PAGE_SIZE)`. -/
def totalPages (n : Nat) : Nat := (n + PAGE_SIZE - 1) / PAGE_SIZE

/-- Lines 2105-2110: clamp the requested page and slice it out.
Returns (page items, clamped current page, total pages). -/
def paginate (gs : List Game) (page : Nat) : List Game × Nat × Nat :=
  let tp := totalPages gs.length
  let p := if page > tp then 1 else page
  let start := (p - 1) * PAGE_SIZE
  ((gs.drop start).take PAGE_SIZE, p, tp)

/-- What a run of `renderGamesForCurrentConsole` puts on the page:
either the "Select a console" placeholder or a page of game cards with
the page indicator. -/
inductive RenderResult where
  | selectConsole
  | page (shown : List Game) (currentPage : Nat) (totalPages : Nat)
deriving Repr, DecidableEq

/-- `renderGamesForCurrentConsole` (source lines 2066-2182) as a pure
derivation: produces the rendered result and the state after the run
(the function's only state write is the clamp `if (currentPage >
totalPages) currentPage = 1`). DOM construction, card markup and the
pagination buttons are display-only and dropped. -/
def renderGamesForCurrentConsole (s : AppState) : RenderResult × AppState :=
  match workingList s with
  | none => (.selectConsole, s)
  | some gs =>
      let r := paginate gs s.currentPage
      (.page r.1 r.2.1 r.2.2, { s with currentPage := r.2.1 })

/-- The request wrapper `apiCall` (source lines 986-1009). The transport
outcome is the argument: `.ok v` is a 2xx response with body `v`,
`.error msg` is a network failure or non-2xx response with parsed error
detail `msg`. The wrapper surfaces one error toast on failure and
re-throws (returns the `Except` unchanged so the caller can abort).
The busy flag `setLoading` is display-only and dropped. -/
def apiCall {α : Type} (response : Except String α) : Except String α × List Toast :=
  match response with
  | .ok v => (.ok v, [])
  | .error msg => (.error msg, [⟨"Error: " ++ msg, "error"⟩])

/-- `loadGamesForConsole` (source lines 2000-2017): refetch a console's
games and stats. Each fetch is individually guarded: a failed games
fetch stores `[]` in the cache entry, a failed stats fetch stores null.
The trailing `renderConsoles()`/`renderStatusFilters()` calls are
display-only; `renderGamesForCurrentConsole()` is kept for its
`currentPage` clamp write. -/
def loadGamesForConsole (cid : Nat) (fetchGames : Except String (List Game))
    (fetchStats : Except String ConsoleStats) (s : AppState) : AppState × List Toast :=
  let g := apiCall fetchGames
  let s1 := { s with gamesByConsole :=
    (updateCache s.gamesByConsole cid (match g.1 with | .ok gs => gs | .error _ => [])) }
  let st := apiCall fetchStats
  let s2 := { s1 with consoleStats := (match st.1 with | .ok v => some v | .error _ => none) }
  ((renderGamesForCurrentConsole s2).2, g.2 ++ st.2)

/-- `applyFilter` (source lines 2056-2061): activates an alphabetical
filter. It sets only `activeFilter` and resets the page; the trailing
render call is kept for its `currentPage` clamp. `renderAlphaIndex` is
display-only. -/
def applyFilter (letter : String) (s : AppState) : AppState :=
  (renderGamesForCurrentConsole
    { s with activeFilter := some letter, currentPage := 1 }).2

/-- `applyGenreFilter` (source lines 465-479): toggles the genre filter
(same value again deactivates it), clears the alphabetical and status
filters, resets the page. `renderGenreFilter`/`renderStatusFilters` are
display-only; the trailing render call is kept for its clamp. -/
def applyGenreFilter (genre : String) (s : AppState) : AppState :=
  let ng := if s.activeGenreFilter = some genre then none else some genre
  (renderGamesForCurrentConsole
    { s with activeGenreFilter := ng, activeFilter := none,
             activeStatusFilter := none, currentPage := 1 }).2

/-- `applyStatusFilter` (source lines 487-517): toggles the status
filter. Activating fetches the status subset (console-scoped or global;
a failed fetch leaves the filter active with an empty subset), then in
both branches clears the alphabetical and genre filters and resets the
page. The recently-viewed section toggle and the render calls other
than the clamp are display-only. -/
def applyStatusFilter (status : String) (fetched : Except String (List Game))
    (s : AppState) : AppState × List Toast :=
  let r : AppState × List Toast :=
    if s.activeStatusFilter = some status then
      ({ s with activeStatusFilter := none, statusFilteredGames := [] }, [])
    else
      let f := apiCall fetched
      ({ s with activeStatusFilter := some status,
                statusFilteredGames := (match f.1 with | .ok gs => gs | .error _ => []) },
       f.2)
  ((renderGamesForCurrentConsole
      { r.1 with activeFilter := none, activeGenreFilter := none, currentPage := 1 }).2,
   r.2)

/-- `loadGameStatus` (source lines 892-900): fetches a game's status,
returning null on failure (the failure is caught internally, the
wrapper's toast still fires). -/
def loadGameStatus (response : Except String GameStatus) : Option GameStatus × List Toast :=
  match apiCall response with
  | (.ok st, ts) => (some st, ts)
  | (.error _, ts) => (none, ts)

/-- Lines 2204-2227 of `openGameDetail`: the navigation list — the
cached list of the current console, sorted, with the alphabetical and
genre filters applied when active. Unlike `workingList`, neither filter
is guarded by the status filter, and `statusFilteredGames` is never
consulted. -/
def navListFor (s : AppState) : List Game :=
  let l0 :=
    match s.currentConsoleId with
    | some cid => sortByTitle (lookupGames s.gamesByConsole cid)
    | none => []
  let l1 :=
    match s.activeFilter with
    | some f => l0.filter fun g => alphaMatches f g.title
    | none => l0
  match s.activeGenreFilter with
  | some gf => l1.filter fun g => genreMatches gf g
  | none => l1

/-- `openGameDetail` (source lines 2187-2236): fetch the game (on
failure the catch block does nothing — state unchanged), fetch its
status, rebuild the navigation list and locate the opened game in it
(`findIndex`, -1 when absent). `recordGameView` is a fire-and-forget
POST with no state effect; `renderGameDetail` and the modal toggle are
display-only. -/
def openGameDetail (gameId : Nat) (fetchGame : Except String Game)
    (fetchStatus : Except String GameStatus) (s : AppState) : AppState × List Toast :=
  match apiCall fetchGame with
  | (.error _, ts) => (s, ts)
  | (.ok game, ts) =>
      let st := loadGameStatus fetchStatus
      let navList := navListFor s
      let idx : Int :=
        match navList.findIdx? (fun g => g.id = gameId) with
        | some i => (i : Int)
        | none => -1
      ({ s with currentGameDetail := some game, currentDescriptionPage := 1,
                currentGameStatus := st.1, currentGamesList := navList,
                currentGameIndex := idx },
       ts ++ st.2)

/-- `navigateToPrevGame` (source lines 2343-2359). Early return when at
index 0 or below or on an empty list: state unchanged and no request
issued (the Bool reports whether a request was issued). Otherwise the
index is decremented before the fetch, so it stays decremented even
when the fetch fails. -/
def navigateToPrevGame (fetchGame : Except String Game)
    (fetchStatus : Except String GameStatus) (s : AppState) :
    AppState × List Toast × Bool :=
  if s.currentGameIndex ≤ 0 ∨ s.currentGamesList.length = 0 then (s, [], false)
  else
    let s1 := { s with currentGameIndex := s.currentGameIndex - 1 }
    match apiCall fetchGame with
    | (.ok game, ts) =>
        let st := loadGameStatus fetchStatus
        ({ s1 with currentGameDetail := some game, currentDescriptionPage := 1,
                   currentGameStatus := st.1 },
         ts ++ st.2, true)
    | (.error _, ts) =>
        (s1, ts ++ [⟨"Failed to load previous game", "error"⟩], true)

/-- `navigateToNextGame` (source lines 2361-2377). Early return when at
the last index or beyond (`index >= length - 1`, in JS integer
arithmetic, so any index on an empty list) — state unchanged, no
request. Otherwise the index is incremented before the fetch. -/
def navigateToNextGame (fetchGame : Except String Game)
    (fetchStatus : Except String GameStatus) (s : AppState) :
    AppState × List Toast × Bool :=
  if s.currentGameIndex ≥ (s.currentGamesList.length : Int) - 1
      ∨ s.currentGamesList.length = 0 then (s, [], false)
  else
    let s1 := { s with currentGameIndex := s.currentGameIndex + 1 }
    match apiCall fetchGame with
    | (.ok game, ts) =>
        let st := loadGameStatus fetchStatus
        ({ s1 with currentGameDetail := some game, currentDescriptionPage := 1,
                   currentGameStatus := st.1 },
         ts ++ st.2, true)
    | (.error _, ts) =>
        (s1, ts ++ [⟨"Failed to load next game", "error"⟩], true)

/-- `GET`/`POST` add-game payload summaries (`{added}` for single add,
`{added, skipped}` for bulk) as used by `confirmAddGame`. -/
structure AddResult where
  added : Nat
  skipped : Nat
deriving Repr, DecidableEq

/-- Which tab of the add-game modal is active, with its text input. -/
inductive AddGameInput where
  | single (title : String)
  | bulk (listText : String)
deriving Repr, DecidableEq

/-- Bulk-mode parsing (source line 1083): split the pasted text on
newlines, trim each line, drop empties. -/
def parseGameLines (t : String) : List String :=
  ((((splitOnChar (Char.ofNat 10) t.data).map trimChars).filter
    fun l => 0 < l.length).map String.mk)

/-- `confirmAddGame` (source lines 1034-1110). Validation failures
short-circuit with a warning toast and no request. On a failed POST the
catch block adds its own error toast on top of the wrapper's and skips
the refetch, leaving the state unchanged. On success the game list is
refetched wholesale via `loadGamesForConsole`. Modal/input clearing and
`loadLastAdded` (a sidebar display refresh with its own internal catch)
are display-only and dropped. -/
def confirmAddGame (input : AddGameInput) (postResult : Except String AddResult)
    (refetchGames : Except String (List Game))
    (refetchStats : Except String ConsoleStats) (s : AppState) :
    AppState × List Toast :=
  match s.currentConsoleId with
  | none => (s, [⟨"Please select a console first", "warning"⟩])
  | some cid =>
      match input with
      | .single rawTitle =>
          let title := trimStr rawTitle
          if title = "" then (s, [⟨"Please enter a game title", "warning"⟩])
          else
            match apiCall postResult with
            | (.ok r, ts) =>
                let t2 : Toast :=
                  if 0 < r.added then ⟨"Added: " ++ title, "success"⟩
                  else ⟨"Already exists: " ++ title, "info"⟩
                let l := loadGamesForConsole cid refetchGames refetchStats s
                (l.1, ts ++ [t2] ++ l.2)
            | (.error _, ts) => (s, ts ++ [⟨"Failed to add game", "error"⟩])
      | .bulk rawText =>
          let text := trimStr rawText
          if text = "" then (s, [⟨"Please paste a list of games", "warning"⟩])
          else
            let games := parseGameLines text
            if games.length = 0 then
              (s, [⟨"No valid game titles found", "warning"⟩])
            else
              match apiCall postResult with
              | (.ok r, ts) =>
                  let t2 : Toast :=
                    ⟨"Added " ++ toString r.added ++ " games" ++
                      (if 0 < r.skipped then
                        " (" ++ toString r.skipped ++ " already existed)" else ""),
                     "success"⟩
                  let l := loadGamesForConsole cid refetchGames refetchStats s
                  (l.1, ts ++ [t2] ++ l.2)
              | (.error _, ts) => (s, ts ++ [⟨"Failed to add games", "error"⟩])

/-- `deleteGame` (source lines 2539-2557). A declined confirm dialog is
a no-op. On a failed DELETE the catch block is empty ("Error already
shown by apiCall") — exactly the wrapper's toast, state unchanged. On
success the list is refetched via `loadGamesForConsole(currentConsoleId)`
(when no console is selected the JS call would only create an unread
junk cache entry under the key "null"; modelled as no cache change).
`extractGenres` (sidebar genre list, recomputed from the cache) and
`loadStats` (homepage stats, caught internally) are display-only. -/
def deleteGame (gameId : Nat) (confirmed : Bool)
    (deleteResult : Except String Unit)
    (refetchGames : Except String (List Game))
    (refetchStats : Except String ConsoleStats) (s : AppState) :
    AppState × List Toast :=
  if ¬ confirmed then (s, [])
  else
    match apiCall deleteResult with
    | (.error _, ts) => (s, ts)
    | (.ok _, ts) =>
        let t : Toast := ⟨"Game deleted successfully", "success"⟩
        match s.currentConsoleId with
        | some cid =>
            let l := loadGamesForConsole cid refetchGames refetchStats s
            (l.1, ts ++ [t] ++ l.2)
        | none => (s, ts ++ [t])

/-- The error notices among a toast trace (toasts with type "error"). -/
def countErrorToasts (ts : List Toast) : Nat :=
  (ts.filter fun t => t.kind = "error").length

/-- The state of the script right after module evaluation (source lines
20-66): empty cache, no selection, no filters, page 1, navigation index
-1. -/
def initState : AppState :=
  { gamesByConsole := [], currentConsoleId := none, activeFilter := none,
    activeGenreFilter := none, activeStatusFilter := none,
    statusFilteredGames := [], currentPage := 1, consoleStats := none,
    currentGameDetail := none, currentGameStatus := none,
    currentGameIndex := -1, currentGamesList := [],
    currentDescriptionPage := 1 }

/-! ### Order-theoretic facts about the comparator model -/

theorem strCmp_self (l : List Nat) : strCmp l l = .eq := by
  induction l with
  | nil => rfl
  | cons a as ih => simp [strCmp, ih]

theorem strCmp_eq_iff : ∀ (a b : List Nat), strCmp a b = .eq ↔ a = b
  | [], [] => by simp [strCmp]
  | [], _ :: _ => by simp [strCmp]
  | _ :: _, [] => by simp [strCmp]
  | x :: xs, y :: ys => by
    by_cases h1 : x < y
    · rw [strCmp, if_pos h1]
      constructor
      · intro hc; cases hc
      · intro hc
        injection hc with h2 _
        omega
    · by_cases h2 : y < x
      · rw [strCmp, if_neg h1, if_pos h2]
        constructor
        · intro hc; cases hc
        · intro hc
          injection hc with h3 _
          omega
      · have hxy : x = y := by omega
        subst hxy
        rw [strCmp, if_neg h1, if_neg h2, strCmp_eq_iff xs ys]
        simp

theorem strCmp_cons_lt_iff (x y : Nat) (xs ys : List Nat) :
    strCmp (x :: xs) (y :: ys) = .lt ↔ x < y ∨ (x = y ∧ strCmp xs ys = .lt) := by
  by_cases h1 : x < y
  · rw [strCmp, if_pos h1]
    simp [h1]
  · by_cases h2 : y < x
    · rw [strCmp, if_neg h1, if_pos h2]
      constructor
      · intro hc; cases hc
      · rintro (h | ⟨rfl, _⟩) <;> omega
    · have hxy : x = y := by omega
      subst hxy
      rw [strCmp, if_neg h1, if_neg h2]
      simp

theorem strCmp_swap : ∀ (a b : List Nat), strCmp a b = (strCmp b a).swap
  | [], [] => by simp [strCmp, Ordering.swap]
  | [], _ :: _ => by simp [strCmp, Ordering.swap]
  | _ :: _, [] => by simp [strCmp, Ordering.swap]
  | x :: xs, y :: ys => by
    simp only [strCmp]
    by_cases h1 : x < y
    · have h2 : ¬ y < x := by omega
      rw [if_pos h1, if_neg h2, if_pos h1]
      rfl
    · by_cases h2 : y < x
      · rw [if_neg h1, if_pos h2, if_pos h2]
        rfl
      · rw [if_neg h1, if_neg h2, if_neg h2, if_neg h1, strCmp_swap xs ys]

theorem strCmp_gt_iff (a b : List Nat) :
    strCmp a b = .gt ↔ strCmp b a = .lt := by
  rw [strCmp_swap a b]
  cases strCmp b a <;> simp [Ordering.swap]

theorem strCmp_lt_trans (a : List Nat) : ∀ (b c : List Nat),
    strCmp a b = .lt → strCmp b c = .lt → strCmp a c = .lt := by
  induction a with
  | nil =>
    intro b c hab hbc
    cases b with
    | nil => simp [strCmp] at hab
    | cons y ys =>
      cases c with
      | nil => simp [strCmp] at hbc
      | cons z zs => rfl
  | cons x xs ih =>
    intro b c hab hbc
    cases b with
    | nil => simp [strCmp] at hab
    | cons y ys =>
      cases c with
      | nil => simp [strCmp] at hbc
      | cons z zs =>
        rw [strCmp_cons_lt_iff] at hab hbc ⊢
        rcases hab with h | ⟨heq, h⟩
        · rcases hbc with h2 | ⟨heq2, h2⟩
          · exact Or.inl (by omega)
          · exact Or.inl (by omega)
        · subst heq
          rcases hbc with h2 | ⟨heq2, h2⟩
          · exact Or.inl h2
          · subst heq2
            exact Or.inr ⟨rfl, ih ys zs h h2⟩

/-- Totality of the sort comparator: for any two strings one compares
`<= 0` against the other. -/
theorem localeLe_total (a b : String) : localeLe a b ∨ localeLe b a := by
  unfold localeLe localeCompare
  cases h1 : strCmp (lowerKey a) (lowerKey b) with
  | lt =>
    left
    simp [h1]
  | gt =>
    right
    have h2 : strCmp (lowerKey b) (lowerKey a) = .lt := (strCmp_gt_iff _ _).mp h1
    simp [h2]
  | eq =>
    have hk : lowerKey a = lowerKey b := (strCmp_eq_iff _ _).mp h1
    have h1' : strCmp (lowerKey b) (lowerKey a) = .eq := by
      rw [hk, strCmp_self]
    cases h2 : strCmp (rawKey a) (rawKey b) with
    | lt => left; simp [h1, h2]
    | eq => left; simp [h1, h2]
    | gt =>
      right
      have h3 : strCmp (rawKey b) (rawKey a) = .lt := (strCmp_gt_iff _ _).mp h2
      simp [h1', h3]

/-- Transitivity of the sort comparator. -/
theorem localeLe_trans (a b c : String) :
    localeLe a b → localeLe b c → localeLe a c := by
  unfold localeLe localeCompare
  intro hab hbc
  cases h1 : strCmp (lowerKey a) (lowerKey b) with
  | gt => simp [h1] at hab
  | lt =>
    cases h2 : strCmp (lowerKey b) (lowerKey c) with
    | gt => simp [h2] at hbc
    | lt =>
      have h3 : strCmp (lowerKey a) (lowerKey c) = .lt := strCmp_lt_trans _ _ _ h1 h2
      simp [h3]
    | eq =>
      have hk : lowerKey b = lowerKey c := (strCmp_eq_iff _ _).mp h2
      have h3 : strCmp (lowerKey a) (lowerKey c) = .lt := by rw [← hk]; exact h1
      simp [h3]
  | eq =>
    have hk : lowerKey a = lowerKey b := (strCmp_eq_iff _ _).mp h1
    cases h2 : strCmp (lowerKey b) (lowerKey c) with
    | gt => simp [h2] at hbc
    | lt =>
      have h3 : strCmp (lowerKey a) (lowerKey c) = .lt := by rw [hk]; exact h2
      simp [h3]
    | eq =>
      have hk2 : lowerKey b = lowerKey c := (strCmp_eq_iff _ _).mp h2
      have h3 : strCmp (lowerKey a) (lowerKey c) = .eq := by
        rw [hk, hk2, strCmp_self]
      rw [h1] at hab
      rw [h2] at hbc
      simp only [h3]
      cases r1 : strCmp (rawKey a) (rawKey b) with
      | gt => simp [r1] at hab
      | lt =>
        cases r2 : strCmp (rawKey b) (rawKey c) with
        | gt => simp [r2] at hbc
        | lt => simp [strCmp_lt_trans _ _ _ r1 r2]
        | eq =>
          have hr : rawKey b = rawKey c := (strCmp_eq_iff _ _).mp r2
          rw [← hr]
          simp [r1]
      | eq =>
        have hr : rawKey a = rawKey b := (strCmp_eq_iff _ _).mp r1
        rw [hr]
        exact hbc

instance : IsTotal Game titleLe :=
  ⟨fun a b => localeLe_total a.title b.title⟩

instance : IsTrans Game titleLe :=
  ⟨fun a b c => localeLe_trans a.title b.title c.title⟩

/-- The sorted branch of the pipeline really sorts: the output of
`sortByTitle` is ordered by the (case-insensitive) comparator. -/
theorem sortByTitle_sorted (l : List Game) :
    List.Sorted titleLe (sortByTitle l) :=
  List.sorted_insertionSort titleLe l

/-- `sortByTitle` only reorders: its output is a permutation of its
input. -/
theorem sortByTitle_perm (l : List Game) : (sortByTitle l).Perm l :=
  List.perm_insertionSort titleLe l

/-! ### Cache and render-state facts -/

theorem lookupGames_updateCache_self (c : List (Nat × List Game)) (cid : Nat)
    (gs : List Game) : lookupGames (updateCache c cid gs) cid = gs := by
  induction c with
  | nil => simp [updateCache, lookupGames]
  | cons kv rest ih =>
    obtain ⟨k, v⟩ := kv
    by_cases h : k = cid
    · simp [updateCache, lookupGames, h]
    · simp [updateCache, lookupGames, h, ih]

theorem lookupGames_updateCache_ne (c : List (Nat × List Game)) (cid cid' : Nat)
    (gs : List Game) (h : cid' ≠ cid) :
    lookupGames (updateCache c cid gs) cid' = lookupGames c cid' := by
  induction c with
  | nil =>
    simp only [updateCache, lookupGames]
    rw [if_neg (show ¬ cid = cid' by omega)]
  | cons kv rest ih =>
    obtain ⟨k, v⟩ := kv
    by_cases hk : k = cid
    · simp only [updateCache, if_pos hk, lookupGames]
      rw [if_neg (show ¬ cid = cid' by omega),
        if_neg (show ¬ k = cid' by omega)]
    · simp only [updateCache, if_neg hk, lookupGames, ih]

/-- A render pass writes nothing but the clamped `currentPage`. -/
theorem renderGames_gamesByConsole (s : AppState) :
    ((renderGamesForCurrentConsole s).2).gamesByConsole = s.gamesByConsole := by
  unfold renderGamesForCurrentConsole
  cases hw : workingList s <;> simp

/-- When the page is already 1, the clamp in a render pass is the
identity and the pass leaves the state unchanged. -/
theorem renderGames_fix_of_page_one (s : AppState) (h : s.currentPage = 1) :
    (renderGamesForCurrentConsole s).2 = s := by
  unfold renderGamesForCurrentConsole
  cases hw : workingList s with
  | none => rfl
  | some gs =>
    simp only [paginate, h]
    have hq : (if 1 > totalPages gs.length then 1 else 1) = s.currentPage := by
      rw [h]
      split <;> rfl
    simp only [hq]

/-- `applyFilter` in closed form: it sets the alphabetical filter and
resets the page, and nothing else. -/
theorem applyFilter_eq (letter : String) (s : AppState) :
    applyFilter letter s =
      { s with activeFilter := some letter, currentPage := 1 } :=
  renderGames_fix_of_page_one _ rfl

/-- `applyGenreFilter` in closed form. -/
theorem applyGenreFilter_eq (genre : String) (s : AppState) :
    applyGenreFilter genre s =
      { s with
        activeGenreFilter :=
          (if s.activeGenreFilter = some genre then none else some genre),
        activeFilter := none, activeStatusFilter := none, currentPage := 1 } :=
  renderGames_fix_of_page_one _ rfl

/-- `applyStatusFilter` state in closed form. -/
theorem applyStatusFilter_eq (status : String) (fetched : Except String (List Game))
    (s : AppState) :
    (applyStatusFilter status fetched s).1 =
      (if s.activeStatusFilter = some status then
        { s with activeStatusFilter := none, statusFilteredGames := [],
                 activeFilter := none, activeGenreFilter := none, currentPage := 1 }
      else
        { s with activeStatusFilter := some status,
                 statusFilteredGames :=
                   (match fetched with | .ok gs => gs | .error _ => []),
                 activeFilter := none, activeGenreFilter := none,
                 currentPage := 1 }) := by
  unfold applyStatusFilter
  by_cases h : s.activeStatusFilter = some status
  · simp only [h, if_pos rfl, if_true]
    exact renderGames_fix_of_page_one _ rfl
  · simp only [if_neg h]
    cases fetched with
    | ok gs => exact renderGames_fix_of_page_one _ rfl
    | error msg => exact renderGames_fix_of_page_one _ rfl

/-! ### Concrete fixtures used by witnesses and counterexamples -/

/-- A game with a lower-case title and a multi-tag genre string. -/
def gAlpha : Game := ⟨1, "alpha", "Action, RPG "⟩

/-- A game with an upper-case title. -/
def gBeta : Game := ⟨2, "Beta", "RPG"⟩

/-- Two games with identical titles and out-of-order ids. -/
def gSame1 : Game := ⟨1, "Same", ""⟩

/-- See `gSame1`. -/
def gSame2 : Game := ⟨2, "Same", ""⟩

/-- A console view over a two-game cache, no filters: the state after
picking console 1. -/
def demoConsoleState : AppState :=
  { initState with currentConsoleId := some 1,
                   gamesByConsole := [(1, [gBeta, gAlpha])] }

/-! ### C2 -/

/-- C2, as claimed, is false: `applyFilter` (the alphabetical filter)
clears neither an active genre filter nor an active status filter.
Starting from a reachable state with genre filter "RPG" active,
activating the alphabetical filter "A" leaves both filters active at
once; likewise for an active status filter. -/
theorem c2_counterexample :
    ((applyFilter "A" (applyGenreFilter "RPG" demoConsoleState)).activeFilter =
        some "A" ∧
      (applyFilter "A" (applyGenreFilter "RPG" demoConsoleState)).activeGenreFilter =
        some "RPG") ∧
    ((applyFilter "A"
          (applyStatusFilter "favorite" (.ok [gBeta]) demoConsoleState).1).activeFilter =
        some "A" ∧
      (applyFilter "A"
          (applyStatusFilter "favorite" (.ok [gBeta]) demoConsoleState).1).activeStatusFilter =
        some "favorite") := by
  decide

/-- C2 (corrected): `applyGenreFilter` clears the alphabetical and
status filters, and `applyStatusFilter` clears the alphabetical and
genre filters, but `applyFilter` (alphabetical) clears nothing: it sets
the alphabetical filter and leaves the genre and status filters exactly
as they were. -/
theorem c2_amended_filter_clearing (s : AppState) (letter genre status : String)
    (fetched : Except String (List Game)) :
    ((applyGenreFilter genre s).activeFilter = none ∧
      (applyGenreFilter genre s).activeStatusFilter = none) ∧
    (((applyStatusFilter status fetched s).1).activeFilter = none ∧
      ((applyStatusFilter status fetched s).1).activeGenreFilter = none) ∧
    ((applyFilter letter s).activeFilter = some letter ∧
      (applyFilter letter s).activeGenreFilter = s.activeGenreFilter ∧
      (applyFilter letter s).activeStatusFilter = s.activeStatusFilter) := by
  refine ⟨⟨?_, ?_⟩, ⟨?_, ?_⟩, ⟨?_, ?_, ?_⟩⟩
  · rw [applyGenreFilter_eq]
  · rw [applyGenreFilter_eq]
  · rw [applyStatusFilter_eq]
    split <;> rfl
  · rw [applyStatusFilter_eq]
    split <;> rfl
  · rw [applyFilter_eq]
  · rw [applyFilter_eq]
  · rw [applyFilter_eq]

/-! ### C6 -/

/-- C6, as claimed, is false: applying the same genre filter twice does
not yield the same active-filter state as applying it once — the second
application toggles the filter off. -/
theorem c6_counterexample :
    (applyGenreFilter "RPG" (applyGenreFilter "RPG" demoConsoleState)).activeGenreFilter =
        none ∧
      (applyGenreFilter "RPG" demoConsoleState).activeGenreFilter = some "RPG" := by
  decide

/-- C6 (corrected): the alphabetical filter is idempotent (re-applying
the same letter is a no-op on the whole state), but genre and status
filters toggle: applying the same value a second time deactivates the
filter instead of leaving it active. -/
theorem c6_amended_filter_idempotence (s : AppState) (letter genre status : String)
    (f1 f2 : Except String (List Game)) :
    applyFilter letter (applyFilter letter s) = applyFilter letter s ∧
    (applyGenreFilter genre (applyGenreFilter genre s)).activeGenreFilter =
      (if s.activeGenreFilter = some genre then some genre else none) ∧
    ((applyStatusFilter status f2 ((applyStatusFilter status f1 s).1)).1).activeStatusFilter =
      (if s.activeStatusFilter = some status then some status else none) := by
  refine ⟨?_, ?_, ?_⟩
  · rw [applyFilter_eq, applyFilter_eq]
  · rw [applyGenreFilter_eq, applyGenreFilter_eq]
    by_cases h : s.activeGenreFilter = some genre <;> simp [h]
  · rw [applyStatusFilter_eq, applyStatusFilter_eq]
    by_cases h : s.activeStatusFilter = some status <;> simp [h]

/-! ### C9 -/

/-- C9: detail navigation never goes out of bounds. At index 0 (or on
an empty navigation list) `navigateToPrevGame` changes nothing — same
state, no toast, no request issued; at the last index
`navigateToNextGame` likewise changes nothing. Boundary clamp, not
wraparound. -/
theorem c9_nav_boundary_noop (s : AppState) (fetchGame : Except String Game)
    (fetchStatus : Except String GameStatus) :
    ((s.currentGameIndex = 0 ∨ s.currentGamesList = []) →
      navigateToPrevGame fetchGame fetchStatus s = (s, [], false)) ∧
    (s.currentGameIndex = (s.currentGamesList.length : Int) - 1 →
      navigateToNextGame fetchGame fetchStatus s = (s, [], false)) := by
  constructor
  · intro h
    unfold navigateToPrevGame
    rcases h with h | h
    · rw [if_pos (Or.inl (by omega))]
    · rw [if_pos (Or.inr (by simp [h]))]
  · intro h
    unfold navigateToNextGame
    rw [if_pos (Or.inl (by omega))]

/-- C9 witness: a one-element navigation list at index 0 is both the
first and the last position, so both directions are no-ops there. -/
theorem c9_nav_boundary_noop_witness :
    navigateToPrevGame (.error "offline") (.error "offline")
        { initState with currentGamesList := [gAlpha], currentGameIndex := 0 } =
      ({ initState with currentGamesList := [gAlpha], currentGameIndex := 0 },
        [], false) ∧
    navigateToNextGame (.error "offline") (.error "offline")
        { initState with currentGamesList := [gAlpha], currentGameIndex := 0 } =
      ({ initState with currentGamesList := [gAlpha], currentGameIndex := 0 },
        [], false) :=
  ⟨(c9_nav_boundary_noop _ _ _).1 (Or.inl (by decide)),
    (c9_nav_boundary_noop _ _ _).2 (by decide)⟩

/-! ### C7 -/

/-- C7: a game is kept by the genre filter iff it is in the input list,
its genre string is non-falsy, and some comma-separated piece of the
genre string, trimmed, equals the active filter exactly. In particular
a game with an empty (or missing, modelled the same way) genre matches
no genre filter. -/
theorem c7_genre_filter_exact_tag (g : Game) (f : String) (gs : List Game) :
    g ∈ gs.filter (genreMatches f) ↔
      g ∈ gs ∧ g.genre ≠ "" ∧
        ∃ t ∈ splitOnChar ',' g.genre.data, trimChars t = f.data := by
  rw [List.mem_filter]
  unfold genreMatches
  by_cases h : g.genre = ""
  · simp [h]
  · simp [h, List.any_eq_true]

/-! ### C3 -/

/-- A console view with an active status filter whose server-fetched
subset is empty. -/
def c3StatusEmptyState : AppState :=
  { initState with currentConsoleId := some 1,
                   gamesByConsole := [(1, [gAlpha])],
                   activeStatusFilter := some "favorite",
                   statusFilteredGames := [] }

/-- C3, as claimed, is false for the empty status subset: with a status
filter active and an empty server-fetched subset, the rendered working
list is the cached console list, not the (empty) subset — the
`statusFilteredGames.length > 0` guard falls through to the cached
branch. -/
theorem c3_counterexample :
    workingList c3StatusEmptyState = some [gAlpha] ∧
      c3StatusEmptyState.statusFilteredGames = [] ∧
      ([gAlpha] : List Game) ≠ [] := by
  decide

/-- C3 (corrected): when a status filter is active and its fetched
subset is non-empty, the working list is exactly that subset and the
alphabetical/genre filters are bypassed; but when the fetched subset is
empty, the working list falls back to the sorted cached console list
(alphabetical/genre filters still bypassed). -/
theorem c3_amended_status_working_list (s : AppState) (st : String) (cid : Nat) :
    (s.activeStatusFilter = some st → s.statusFilteredGames ≠ [] →
      workingList s = some s.statusFilteredGames) ∧
    (s.activeStatusFilter = some st → s.statusFilteredGames = [] →
      s.currentConsoleId = some cid →
      workingList s = some (sortByTitle (lookupGames s.gamesByConsole cid))) := by
  constructor
  · intro hst hne
    have hlen : 0 < s.statusFilteredGames.length := List.length_pos.mpr hne
    unfold workingList baseList
    rw [if_pos ⟨by simp [hst], hlen⟩]
    simp [hst]
  · intro hst hemp hcid
    unfold workingList baseList
    rw [if_neg (by simp [hemp])]
    simp [hcid, hst]

/-- C3 witness: with status filter "favorite" active and the non-empty
fetched subset `[gBeta]`, the working list is exactly that subset even
though a genre filter is also set. -/
theorem c3_amended_status_working_list_witness :
    workingList
        { initState with currentConsoleId := some 1,
                         gamesByConsole := [(1, [gAlpha])],
                         activeGenreFilter := some "RPG",
                         activeStatusFilter := some "favorite",
                         statusFilteredGames := [gBeta] } =
      some [gBeta] :=
  (c3_amended_status_working_list _ "favorite" 1).1 rfl (by decide)

/-! ### C4 -/

/-- A state with two consoles cached. -/
def c4TwoConsoleState : AppState :=
  { initState with gamesByConsole := [(1, [gAlpha]), (2, [gBeta])] }

/-- C4, as claimed, is false: a failed games refresh does not leave the
prior cache entry untouched — the catch block overwrites it with the
empty list (`gamesByConsole[consoleId] = []`). -/
theorem c4_counterexample :
    lookupGames c4TwoConsoleState.gamesByConsole 1 = [gAlpha] ∧
      lookupGames
        ((loadGamesForConsole 1 (.error "network unreachable")
            (.error "network unreachable") c4TwoConsoleState).1).gamesByConsole 1 = [] ∧
      ([gAlpha] : List Game) ≠ [] := by
  decide

/-- C4 (corrected): a failed refresh of console `cid` replaces that
console's cache entry with the empty list (so the prior list for `cid`
is lost, not preserved), while cache entries of every other console are
left untouched whatever the fetch outcome. -/
theorem c4_amended_failed_refresh (s : AppState) (cid : Nat) (msg : String)
    (fs : Except String ConsoleStats) (fg : Except String (List Game)) :
    lookupGames
        ((loadGamesForConsole cid (.error msg) fs s).1).gamesByConsole cid = [] ∧
    (∀ cid', cid' ≠ cid →
      lookupGames ((loadGamesForConsole cid fg fs s).1).gamesByConsole cid' =
        lookupGames s.gamesByConsole cid') := by
  constructor
  · simp only [loadGamesForConsole, apiCall, renderGames_gamesByConsole]
    rw [lookupGames_updateCache_self]
  · intro cid' h
    simp only [loadGamesForConsole, renderGames_gamesByConsole]
    rw [lookupGames_updateCache_ne _ _ _ _ h]

/-- C4 witness: refreshing console 1 against a dead server empties its
entry; console 2's entry survives any refresh of console 1. -/
theorem c4_amended_failed_refresh_witness :
    lookupGames
        ((loadGamesForConsole 1 (.error "network unreachable")
            (.error "network unreachable") c4TwoConsoleState).1).gamesByConsole 1 = [] ∧
      lookupGames
          ((loadGamesForConsole 1 (.ok [gAlpha])
              (.error "network unreachable") c4TwoConsoleState).1).gamesByConsole 2 =
        lookupGames c4TwoConsoleState.gamesByConsole 2 :=
  ⟨(c4_amended_failed_refresh c4TwoConsoleState 1 "network unreachable"
      (.error "network unreachable") (.error "network unreachable")).1,
    (c4_amended_failed_refresh c4TwoConsoleState 1 "network unreachable"
      (.error "network unreachable") (.ok [gAlpha])).2 2 (by decide)⟩

/-! ### C5 -/

/-- C5, as claimed, is false: a failed add-game mutation produces two
user-visible error notices, not exactly one — the wrapper's
"Error: ..." toast plus the caller's own "Failed to add game" toast. -/
theorem c5_counterexample :
    countErrorToasts
        (confirmAddGame (.single "Chrono Trigger") (.error "HTTP 500")
          (.ok []) (.error "unused") demoConsoleState).2 = 2 ∧
      (2 : Nat) ≠ 1 := by
  decide

/-- C5 (corrected): a failed mutation leaves the state — and hence the
rendered list — unchanged, but the number of error notices depends on
the operation: `confirmAddGame` (single and bulk) surfaces exactly two
(the wrapper's and its own catch's), while `deleteGame` surfaces
exactly one (its catch is empty because the wrapper already toasted). -/
theorem c5_amended_failed_mutation (s : AppState) (title listText msg : String)
    (gid : Nat) (rg : Except String (List Game))
    (rs : Except String ConsoleStats) :
    (s.currentConsoleId.isSome = true → trimStr title ≠ "" →
      (confirmAddGame (.single title) (.error msg) rg rs s).1 = s ∧
        countErrorToasts (confirmAddGame (.single title) (.error msg) rg rs s).2 = 2) ∧
    (s.currentConsoleId.isSome = true → trimStr listText ≠ "" →
      parseGameLines (trimStr listText) ≠ [] →
      (confirmAddGame (.bulk listText) (.error msg) rg rs s).1 = s ∧
        countErrorToasts (confirmAddGame (.bulk listText) (.error msg) rg rs s).2 = 2) ∧
    ((deleteGame gid true (.error msg) rg rs s).1 = s ∧
      countErrorToasts (deleteGame gid true (.error msg) rg rs s).2 = 1) := by
  refine ⟨?_, ?_, ?_⟩
  · intro hs htitle
    obtain ⟨cid, hcid⟩ := Option.isSome_iff_exists.mp hs
    unfold confirmAddGame
    rw [hcid]
    simp only [apiCall]
    rw [if_neg htitle]
    simp [countErrorToasts]
  · intro hs htext hlines
    obtain ⟨cid, hcid⟩ := Option.isSome_iff_exists.mp hs
    unfold confirmAddGame
    rw [hcid]
    simp only [apiCall]
    rw [if_neg htext, if_neg (by simpa using hlines)]
    simp [countErrorToasts]
  · unfold deleteGame
    rw [if_neg (by simp)]
    simp [apiCall, countErrorToasts]

/-- C5 witness: a concrete failed single add against a selected console
leaves the state unchanged and produces two error notices; a concrete
failed delete produces one. -/
theorem c5_amended_failed_mutation_witness :
    ((confirmAddGame (.single "Chrono Trigger") (.error "HTTP 500")
        (.ok []) (.error "unused") demoConsoleState).1 = demoConsoleState ∧
      countErrorToasts
        (confirmAddGame (.single "Chrono Trigger") (.error "HTTP 500")
          (.ok []) (.error "unused") demoConsoleState).2 = 2) ∧
    ((deleteGame 7 true (.error "HTTP 500") (.ok []) (.error "unused")
        demoConsoleState).1 = demoConsoleState ∧
      countErrorToasts
        (deleteGame 7 true (.error "HTTP 500") (.ok []) (.error "unused")
          demoConsoleState).2 = 1) :=
  ⟨(c5_amended_failed_mutation demoConsoleState "Chrono Trigger" "unused"
      "HTTP 500" 7 (.ok []) (.error "unused")).1 (by decide) (by decide),
    (c5_amended_failed_mutation demoConsoleState "Chrono Trigger" "unused"
      "HTTP 500" 7 (.ok []) (.error "unused")).2.2⟩

/-! ### C1 -/

/-- The ordering the spec claims for every rendered base list: by title,
case-insensitive lexicographic, ties broken by ascending id. Written
from the claim's words, for refutation; the code's actual comparator is
`titleLe`, which has no id component. -/
def specTitleIdLe (a b : Game) : Prop :=
  strCmp (lowerKey a.title) (lowerKey b.title) = .lt ∨
    (lowerKey a.title = lowerKey b.title ∧ a.id ≤ b.id)

instance : DecidableRel specTitleIdLe := fun a b => by
  unfold specTitleIdLe; infer_instance

/-- A console view whose active status filter fetched an unsorted
subset. -/
def c1StatusState : AppState :=
  { initState with currentConsoleId := some 1,
                   gamesByConsole := [(1, [gAlpha])],
                   activeStatusFilter := some "favorite",
                   statusFilteredGames := [gBeta, gAlpha] }

/-- A console view whose cache holds two games with identical titles,
ids out of order. -/
def c1TieState : AppState :=
  { initState with currentConsoleId := some 1,
                   gamesByConsole := [(1, [gSame2, gSame1])] }

/-- C1, as claimed, is false on both counts: the status-filtered base
list is used exactly as fetched ("Beta" before "alpha" stays that way,
unsorted), and the cached branch breaks title ties by cache position,
not by id (ids 2, 1 stay in that order for equal titles). -/
theorem c1_counterexample :
    (baseList c1StatusState = some [gBeta, gAlpha] ∧
      ¬ List.Sorted specTitleIdLe [gBeta, gAlpha]) ∧
    (baseList c1TieState = some [gSame2, gSame1] ∧
      ¬ List.Sorted specTitleIdLe [gSame2, gSame1]) := by
  decide

/-- C1 (corrected): when no status filter is active, the base list for
a selected console is the cached list sorted by the case-insensitive
title comparator — a sorted permutation of the cache, with equal titles
kept in cache order (stable sort; no id tie-break); when a status
filter is active with a non-empty fetched subset, the base list is that
subset exactly as fetched, unsorted. The derivation is a pure function
of the state, so re-running it on unchanged input yields the identical
page. -/
theorem c1_amended_base_list (s : AppState) (cid : Nat) (st : String)
    (l : List Game) :
    (s.activeStatusFilter = none → s.currentConsoleId = some cid →
      baseList s = some (sortByTitle (lookupGames s.gamesByConsole cid))) ∧
    (List.Sorted titleLe (sortByTitle l) ∧ (sortByTitle l).Perm l) ∧
    (s.activeStatusFilter = some st → s.statusFilteredGames ≠ [] →
      baseList s = some s.statusFilteredGames) := by
  refine ⟨?_, ⟨sortByTitle_sorted l, sortByTitle_perm l⟩, ?_⟩
  · intro hst hcid
    unfold baseList
    rw [if_neg (by simp [hst])]
    simp [hcid]
  · intro hst hne
    have hlen : 0 < s.statusFilteredGames.length := List.length_pos.mpr hne
    unfold baseList
    rw [if_pos ⟨by simp [hst], hlen⟩]

/-- C1 witness: on a concrete console view with no status filter, the
base list is the sort of the cached list, and on the status view the
base list is the fetched subset as-is. -/
theorem c1_amended_base_list_witness :
    baseList demoConsoleState =
      some (sortByTitle (lookupGames demoConsoleState.gamesByConsole 1)) ∧
    baseList c1StatusState = some c1StatusState.statusFilteredGames :=
  ⟨(c1_amended_base_list demoConsoleState 1 "favorite" []).1 rfl rfl,
    (c1_amended_base_list c1StatusState 1 "favorite" []).2.2 rfl (by decide)⟩

/-! ### C8 -/

/-- C8: pagination of the filtered, sorted working list. The page count
is `ceil(n / PAGE_SIZE)` (characterised by the two bounds); a requested
page above the page count is clamped to 1 and one within range is kept;
the displayed page is the size-`PAGE_SIZE` window of the list starting
at position `(page - 1) * PAGE_SIZE` (so its `i`-th entry is the
`(page - 1) * PAGE_SIZE + i`-th entry of the working list, and its
length is `min PAGE_SIZE (n - (page - 1) * PAGE_SIZE)`); and a render
pass displays exactly this slice of the working list and stores the
clamped page back. -/
theorem c8_pagination (gs : List Game) (p : Nat) (hp : 1 ≤ p) :
    (paginate gs p).2.2 = totalPages gs.length ∧
    gs.length ≤ PAGE_SIZE * totalPages gs.length ∧
    PAGE_SIZE * totalPages gs.length < gs.length + PAGE_SIZE ∧
    (p > totalPages gs.length → (paginate gs p).2.1 = 1) ∧
    (p ≤ totalPages gs.length → (paginate gs p).2.1 = p) ∧
    (paginate gs p).1.length =
      min PAGE_SIZE (gs.length - ((paginate gs p).2.1 - 1) * PAGE_SIZE) ∧
    (∀ i : Nat, ((paginate gs p).1)[i]? =
      if i < PAGE_SIZE then gs[((paginate gs p).2.1 - 1) * PAGE_SIZE + i]?
      else none) ∧
    (∀ s : AppState, workingList s = some gs → s.currentPage = p →
      renderGamesForCurrentConsole s =
        (.page (paginate gs p).1 (paginate gs p).2.1 (paginate gs p).2.2,
          { s with currentPage := (paginate gs p).2.1 })) := by
  have hp1 : 1 ≤ p := hp
  refine ⟨rfl, ?_, ?_, ?_, ?_, ?_, ?_, ?_⟩
  · unfold totalPages PAGE_SIZE
    omega
  · unfold totalPages PAGE_SIZE
    omega
  · intro h
    simp only [paginate]
    rw [if_pos h]
  · intro h
    simp only [paginate]
    rw [if_neg (by omega)]
  · simp only [paginate]
    rw [List.length_take, List.length_drop]
  · intro i
    simp only [paginate]
    rw [List.getElem?_take]
    by_cases h : i < PAGE_SIZE
    · rw [if_pos h, if_pos h, List.getElem?_drop]
    · rw [if_neg h, if_neg h]
  · intro s hw hpage
    simp only [renderGamesForCurrentConsole, hw, hpage]

/-- C8 witness: with 45 matching games, the page count is 3, page 3
contains exactly 5 items, and requesting page 10 clamps back to
page 1. -/
theorem c8_pagination_witness :
    (paginate (List.replicate 45 gAlpha) 3).2.2 = 3 ∧
    (paginate (List.replicate 45 gAlpha) 3).1.length = 5 ∧
    (paginate (List.replicate 45 gAlpha) 10).2.1 = 1 := by
  refine ⟨?_, ?_, ?_⟩
  · have h := (c8_pagination (List.replicate 45 gAlpha) 3 (by decide)).1
    rw [h]
    decide
  · have h := (c8_pagination (List.replicate 45 gAlpha) 3 (by decide)).2.2.2.2.2.1
    rw [h]
    decide
  · exact (c8_pagination (List.replicate 45 gAlpha) 10 (by decide)).2.2.2.1
      (by decide)

/-! ### C10 -/

/-- A console view with a status filter active whose one-game fetched
subset is what the user sees and clicks. -/
def c10StatusState : AppState :=
  { initState with currentConsoleId := some 1,
                   gamesByConsole := [(1, [gBeta, gAlpha])],
                   activeStatusFilter := some "favorite",
                   statusFilteredGames := [gAlpha] }

/-- C10, as claimed, is false when a status filter is active: the
clicked list is the one-game status subset, but opening the detail
computes the navigation list from the cached console list (sorted,
alpha/genre-filtered), ignoring `statusFilteredGames` entirely. -/
theorem c10_counterexample :
    workingList c10StatusState = some [gAlpha] ∧
      ((openGameDetail 1 (.ok gAlpha) (.error "offline")
          c10StatusState).1).currentGamesList = [gAlpha, gBeta] ∧
      ([gAlpha, gBeta] : List Game) ≠ [gAlpha] := by
  decide

/-- C10 (corrected): the navigation list built by `openGameDetail` is
the sorted cached console list with the active alphabetical/genre
filters applied. When no status filter is active this coincides exactly
with the rendered working list, so prev/next stay within the clicked
filter context; but the list never consults the status subset
(`statusFilteredGames`), so under an active status filter navigation
ranges over the cached list instead of the displayed subset. -/
theorem c10_amended_nav_list (s : AppState) (gs : List Game) :
    (s.activeStatusFilter = none → workingList s = some gs →
      navListFor s = gs) ∧
    navListFor s = navListFor { s with statusFilteredGames := [] } := by
  constructor
  · intro hst hw
    unfold workingList baseList at hw
    rw [if_neg (by simp [hst])] at hw
    cases hcid : s.currentConsoleId with
    | none =>
      rw [hcid] at hw
      simp at hw
    | some cid =>
      rw [hcid] at hw
      cases haf : s.activeFilter <;> cases hgf : s.activeGenreFilter <;>
        simp only [hst, haf, hgf, Option.isNone_none, if_true,
          Option.map_some', Option.some.injEq] at hw <;>
        simp [navListFor, hcid, haf, hgf, hw]
  · rfl

/-- C10 witness: on a concrete console view with no status filter, the
navigation list equals the rendered working list. -/
theorem c10_amended_nav_list_witness :
    navListFor demoConsoleState = [gAlpha, gBeta] :=
  (c10_amended_nav_list demoConsoleState [gAlpha, gBeta]).1 rfl (by decide)
